import Mathlib

/-!
Shallow embedding of `src/matrix.rs` (crate `matrix_rs`): a generic dense
matrix over a flat row-major buffer, with element access, functional
transformation, arithmetic, and a textual renderer.

Rust `usize` indices are modelled as `Nat` (the programs never overflow
them in the claims considered). Rust `Vec<T>` is a `List` and `T: Default`
is `Inhabited` (with `default`). Fallible operations that in Rust mutate
`self` and return `Result<&mut Self, &str>` are modelled as state
transformers returning the post-state paired with `Except String Unit`,
so that absence of a write is expressible. `Option` mirrors Rust `Option`.
-/

namespace MatrixRs

/-- The `Matrix<T>` struct of `matrix.rs`: logical shape `rows × cols` and a
flat row-major buffer `matrix` (the field name of the source). The source
does not enforce `matrix.length = rows * cols`. -/
structure Matrix (α : Type) where
  rows : Nat
  cols : Nat
  matrix : List α
deriving Repr, DecidableEq

namespace Matrix

/-- `Matrix::new(rows, cols)`: declares a shape but allocates no backing
storage (`Vec::new()`), so the buffer starts empty. -/
def new (α : Type) (rows cols : Nat) : Matrix α :=
  { rows := rows, cols := cols, matrix := [] }

/-- `Matrix::new_empty(rows, cols)`: allocates `rows*cols` default-valued
elements (`vec![Default::default(); rows * cols]`). Despite its name this is
the filled constructor (the spec calls it `new_filled`). -/
def new_empty (α : Type) [Inhabited α] (rows cols : Nat) : Matrix α :=
  { rows := rows, cols := cols, matrix := List.replicate (rows * cols) default }

/-- `Matrix::from_vec(v)`: rows from the outer length, cols from the first
inner row (`v[0].len()` — a panic on empty input, modelled here by
`headD []` and never invoked on empty input in this development), buffer by
flattening. -/
def from_vec (v : List (List α)) : Matrix α :=
  { rows := v.length, cols := (v.headD []).length, matrix := v.flatten }

/-- `Matrix::num_rows`. -/
def num_rows (m : Matrix α) : Nat := m.rows

/-- `Matrix::num_cols`. -/
def num_cols (m : Matrix α) : Nat := m.cols

/-- `Matrix::index_inbounds(row, col)`: the source's match returns `None`
when `self.rows < row`, else `None` when `self.cols < col`, else
`Some(row * cols + col)`. -/
def index_inbounds (m : Matrix α) (row col : Nat) : Option Nat :=
  if m.rows < row then none
  else if m.cols < col then none
  else some (row * m.cols + col)

/-- `Matrix::index(row, col) = row * self.cols + col`, with no bounds
validation. -/
def index (m : Matrix α) (row col : Nat) : Nat :=
  row * m.cols + col

/-- `Matrix::at(row, col)`: `self.matrix.get(self.index(row, col))` —
`Vec::get` returns `Some` exactly when the offset is within the buffer. -/
def at' (m : Matrix α) (row col : Nat) : Option α :=
  m.matrix.get? (m.index row col)

/-- `Matrix::at_or_default(row, col)`. -/
def at_or_default [Inhabited α] (m : Matrix α) (row col : Nat) : α :=
  match m.at' row col with
  | some val => val
  | none => default

/-- `Matrix::set(&mut self, row, col, value) -> Result<&mut Self, &str>`:
writes through `index`; if `get_mut` finds no slot (offset not below the
buffer length) it returns `Err("Index out of bounds")` and self is
untouched. Modelled as post-state paired with the call's outcome. -/
def set (m : Matrix α) (row col : Nat) (value : α) :
    Matrix α × Except String Unit :=
  let idx := m.index row col
  if idx < m.matrix.length then
    ({ m with matrix := m.matrix.set idx value }, Except.ok ())
  else
    (m, Except.error "Index out of bounds")

/-- `Matrix::apply(&mut self, row, col, map)`: reads via `at`, applies the
transform and writes back via `set`; `Err("Index out of bounds")` when the
cell does not exist. -/
def apply (m : Matrix α) (row col : Nat) (f : α → α) :
    Matrix α × Except String Unit :=
  match m.at' row col with
  | some v => m.set row col (f v)
  | none => (m, Except.error "Index out of bounds")

/-- `Matrix::map(transform)`: applies the transform to every stored element
in buffer order, keeping the shape; pure. -/
def map (m : Matrix α) (f : α → β) : Matrix β :=
  { rows := m.rows, cols := m.cols, matrix := m.matrix.map f }

/-- `Matrix::matrix_add(&self, m)`: `None` on the shape guard
`self.rows != m.rows || self.cols != m.cols`; otherwise allocates the
result with the bare constructor `Matrix::new` (empty buffer), zips the two
buffers, sums, and writes each sum at its index through
`result.matrix.get_mut(i)` — which silently does nothing when slot `i`
does not exist. -/
def matrix_add [Add α] (m other : Matrix α) : Option (Matrix α) :=
  if m.rows ≠ other.rows ∨ m.cols ≠ other.cols then none
  else
    let result := new α m.rows m.cols
    let sums := (List.zip m.matrix other.matrix).map (fun p => p.1 + p.2)
    let final := sums.enum.foldl
      (fun acc iz => if iz.1 < acc.length then acc.set iz.1 iz.2 else acc)
      result.matrix
    some { result with matrix := final }

/-- `Matrix::matrix_multiply(&self, m)`: the implemented guard is the same
equal-shape test as `matrix_add`; the result is allocated with the bare
constructor `Matrix::new(self.rows, m.num_cols())`; the triple loop runs
`i < self.num_rows()`, `j < self.num_cols()`, `k < m.num_rows()` and does
`let _ = result.apply(i, j, |x| x + &prod)`, discarding any error. -/
def matrix_multiply [Add α] [Mul α] [Inhabited α] (m other : Matrix α) :
    Option (Matrix α) :=
  if m.rows ≠ other.rows ∨ m.cols ≠ other.cols then none
  else
    let init := new α m.rows other.num_cols
    some ((List.range m.num_rows).foldl (fun res i =>
      (List.range m.num_cols).foldl (fun res j =>
        (List.range other.num_rows).foldl (fun res k =>
          let prod := m.at_or_default i k * other.at_or_default k j
          (res.apply i j (fun x => x + prod)).1) res) res) init)

/-- `slice::chunks(n)` with explicit structural fuel (the buffer length
bounds the number of chunks whenever `n ≥ 1`, the only case the renderer
reaches with a nonempty buffer). -/
def chunksAux (fuel n : Nat) (l : List α) : List (List α) :=
  match fuel, l with
  | 0, _ => []
  | _, [] => []
  | Nat.succ f, l => l.take n :: chunksAux f n (l.drop n)

/-- `self.matrix.as_slice().chunks(self.cols)` as used by the renderer. -/
def chunks (n : Nat) (l : List α) : List (List α) :=
  chunksAux l.length n l

/-- `format!("{:>w$}", s)`: right-align `s` in width `w` by padding with
spaces on the left. -/
def padLeft (s : String) (w : Nat) : String :=
  String.mk (List.replicate (w - s.length) ' ') ++ s

/-- The `Display` impl: starts from `"\n"`, takes the maximum stringified
element length over the whole buffer with `.max().unwrap()` — the `unwrap`
panics on an empty buffer, modelled as `none` — then renders each
`cols`-chunk as `"[ "`, the right-aligned values each followed by a space,
and `"]\n"`. -/
def render [ToString α] (m : Matrix α) : Option String :=
  match (m.matrix.map (fun x => (toString x).length)).max? with
  | none => none
  | some maxLen =>
    let rowsL := chunks m.cols m.matrix
    some (rowsL.foldl (fun acc row =>
      acc ++ "[ "
        ++ String.join (row.map (fun x => padLeft (toString x) maxLen ++ " "))
        ++ "]\n") "\n")

end Matrix

/-- Claim C1: for same-shape operands `matrix_add` is claimed to return a
matrix whose every cell is the sum of the corresponding operand cells.
The code instead allocates the result with the bare `Matrix::new` (empty
buffer), so every write through `get_mut` silently misses: adding two 1×1
default (zero) matrices yields a matrix whose buffer is empty and whose
cell (0,0) is absent, not `default`. This theorem evaluates the code at
that failing input. -/
theorem matrix_add_zero_matrices_returns_empty_buffer :
    Matrix.matrix_add (Matrix.new_empty Int 1 1) (Matrix.new_empty Int 1 1)
      = some (Matrix.mk 1 1 []) ∧
    (Matrix.mk 1 1 ([] : List Int)).at' 0 0 = none := by
  decide

/-- Claim C2: the result of `matrix_multiply` is claimed to be allocated
with `rows*cols` default cells before accumulation, with cell (i,j) ending
as the sum of products. The code allocates via bare `Matrix::new`, so every
`apply` fails (its error discarded) and the returned matrix has an empty
buffer: `[[2]] * [[3]]` yields a 1×1 matrix with no cells instead of cell
(0,0) = 6. This theorem evaluates the code at that failing input. -/
theorem matrix_multiply_result_buffer_empty :
    Matrix.matrix_multiply (Matrix.from_vec [[(2 : Int)]])
        (Matrix.from_vec [[(3 : Int)]])
      = some (Matrix.mk 1 1 []) ∧
    (Matrix.mk 1 1 ([] : List Int)).at' 0 0 = none := by
  decide

/-- Claim C3: `matrix_add` and `matrix_multiply` return `none` exactly when
the implemented guard fires, i.e. exactly when `self.rows ≠ other.rows` or
`self.cols ≠ other.cols`; on identical shapes neither returns `none`. -/
theorem shape_mismatch_guard_iff {α : Type} [Add α] [Mul α] [Inhabited α]
    (m o : Matrix α) :
    (Matrix.matrix_add m o = none ↔ m.rows ≠ o.rows ∨ m.cols ≠ o.cols) ∧
    (Matrix.matrix_multiply m o = none ↔ m.rows ≠ o.rows ∨ m.cols ≠ o.cols) := by
  constructor
  · unfold Matrix.matrix_add
    split <;> simp_all
  · unfold Matrix.matrix_multiply
    split <;> simp_all

/-- Claim C4, counterexample: the claim predicts `index_inbounds` returns
`some` exactly when `row < rows` and `col < cols`, but on a 1×1 matrix the
coordinates (1,1) — with neither `1 < rows` nor `1 < cols` — are accepted
with offset 2, because the source compares `rows < row` instead of
`rows ≤ row`. -/
theorem index_inbounds_accepts_row_eq_rows :
    (Matrix.mk 1 1 ([0] : List Int)).index_inbounds 1 1 = some 2 ∧
    ¬ (1 < (Matrix.mk 1 1 ([0] : List Int)).rows ∧
       1 < (Matrix.mk 1 1 ([0] : List Int)).cols) := by
  decide

/-- Claim C4, amended: `index_inbounds` returns `some (row*cols + col)`
exactly when `row ≤ rows` and `col ≤ cols` — off by one against the
intended invariant, additionally accepting `row = rows` and `col = cols`. -/
theorem index_inbounds_characterization {α : Type} (m : Matrix α)
    (row col : Nat) :
    m.index_inbounds row col
      = if row ≤ m.rows ∧ col ≤ m.cols
        then some (row * m.cols + col) else none := by
  unfold Matrix.index_inbounds
  rcases Nat.lt_or_ge m.rows row with h1 | h1
  · rw [if_pos h1, if_neg (by omega : ¬(row ≤ m.rows ∧ col ≤ m.cols))]
  · rw [if_neg (Nat.not_lt.2 h1)]
    rcases Nat.lt_or_ge m.cols col with h2 | h2
    · rw [if_pos h2, if_neg (by omega : ¬(row ≤ m.rows ∧ col ≤ m.cols))]
    · rw [if_neg (Nat.not_lt.2 h2), if_pos ⟨h1, h2⟩]

/-- Claim C5: round-trip — for any in-bounds coordinate (offset within the
buffer length) and value `v`, `set(row, col, v)` followed by
`get(row, col)` (the source's `at`) yields `v`. -/
theorem set_then_at_roundtrip {α : Type} (m : Matrix α) (row col : Nat)
    (v : α) (h : row * m.cols + col < m.matrix.length) :
    ((m.set row col v).1).at' row col = some v := by
  unfold Matrix.set Matrix.at' Matrix.index
  simp only [h, if_pos, List.get?_eq_getElem?]
  exact List.getElem?_set_eq_of_lt v (by simpa using h)

/-- Witness for claim C5 at a concrete input: writing 7 at (1,0) of a 2×2
zero matrix and reading it back yields 7. -/
theorem set_then_at_roundtrip_witness :
    ((Matrix.new_empty Int 2 2).set 1 0 7).1.at' 1 0 = some 7 :=
  set_then_at_roundtrip (Matrix.new_empty Int 2 2) 1 0 7 (by decide)

/-- Claim C6: when the offset is not below the buffer length, `set` returns
the error `"Index out of bounds"` and the matrix — shape and every buffer
element — is unchanged; when the offset is within the buffer, `set`
succeeds. -/
theorem set_out_of_bounds_no_write {α : Type} (m : Matrix α) (row col : Nat)
    (v : α) :
    (m.matrix.length ≤ m.index row col →
      m.set row col v = (m, Except.error "Index out of bounds")) ∧
    (m.index row col < m.matrix.length →
      (m.set row col v).2 = Except.ok ()) := by
  unfold Matrix.set
  constructor
  · intro h
    simp [Nat.not_lt.2 h]
  · intro h
    simp [h]

/-- Witness for claim C6 at concrete inputs: on a 1×1 matrix, `set` at
(2,0) errors and leaves the matrix intact, and `set` at (0,0) succeeds. -/
theorem set_out_of_bounds_no_write_witness :
    (Matrix.new_empty Int 1 1).set 2 0 5
        = (Matrix.new_empty Int 1 1, Except.error "Index out of bounds") ∧
    ((Matrix.new_empty Int 1 1).set 0 0 5).2 = Except.ok () :=
  ⟨(set_out_of_bounds_no_write (Matrix.new_empty Int 1 1) 2 0 5).1 (by decide),
   (set_out_of_bounds_no_write (Matrix.new_empty Int 1 1) 0 0 5).2 (by decide)⟩

/-- Claim C7: `at` returns the buffer element at linear offset
`row*cols + col` whenever that offset is within the buffer length — no
check of `row` against `rows` — and returns `none` exactly when the offset
reaches or exceeds the buffer length. -/
theorem at_returns_buffer_element_at_offset {α : Type} (m : Matrix α)
    (row col : Nat) :
    (m.matrix.length ≤ m.index row col → m.at' row col = none) ∧
    (∀ h : m.index row col < m.matrix.length,
      m.at' row col = some (m.matrix.get ⟨m.index row col, h⟩)) := by
  unfold Matrix.at'
  constructor
  · intro h
    exact List.get?_eq_none.mpr h
  · intro h
    exact List.get?_eq_get h

/-- Witness for claim C7 at a concrete input: on the 2×2 matrix
[[1,2],[3,4]], the out-of-range column (0,3) still maps to offset 3 inside
the buffer and returns cell 4 — a different, incorrect cell — while (2,0)
maps to offset 4 and returns none. -/
theorem at_returns_buffer_element_at_offset_witness :
    (Matrix.from_vec [[(1 : Nat), 2], [3, 4]]).at' 0 3 = some 4 ∧
    (Matrix.from_vec [[(1 : Nat), 2], [3, 4]]).at' 2 0 = none := by
  refine ⟨?_, (at_returns_buffer_element_at_offset
    (Matrix.from_vec [[(1 : Nat), 2], [3, 4]]) 2 0).1 (by decide)⟩
  have h := (at_returns_buffer_element_at_offset
    (Matrix.from_vec [[(1 : Nat), 2], [3, 4]]) 0 3).2 (by decide)
  exact h.trans (by decide)

/-- Claim C8: `map f` preserves `rows` and `cols`, its buffer is `f` mapped
over the original buffer in order, and cellwise it commutes with `at`; the
source matrix is untouched (the operation is modelled as a pure function of
`m`). -/
theorem map_preserves_shape_and_cells {α β : Type} (m : Matrix α)
    (f : α → β) :
    (m.map f).rows = m.rows ∧ (m.map f).cols = m.cols ∧
    (m.map f).matrix = m.matrix.map f ∧
    ∀ row col, (m.map f).at' row col = Option.map f (m.at' row col) := by
  refine ⟨rfl, rfl, rfl, ?_⟩
  intro row col
  unfold Matrix.at' Matrix.index Matrix.map
  simp [List.get?_eq_getElem?, List.getElem?_map]

/-- Claim C9: concrete scenario for the matrix built from [[1,2],[3,4]]:
get(0,1) = 2, get(1,0) = 3, get(2,0) is absent, the maximum stringified
element width is 1, and rendering yields exactly a leading newline then one
bracketed, width-aligned line per row. -/
theorem concrete_scenario_from_vec_1234 :
    (Matrix.from_vec [[(1 : Nat), 2], [3, 4]]).at' 0 1 = some 2 ∧
    (Matrix.from_vec [[(1 : Nat), 2], [3, 4]]).at' 1 0 = some 3 ∧
    (Matrix.from_vec [[(1 : Nat), 2], [3, 4]]).at' 2 0 = none ∧
    ((Matrix.from_vec [[(1 : Nat), 2], [3, 4]]).matrix.map
        (fun x => (toString x).length)).max? = some 1 ∧
    Matrix.render (Matrix.from_vec [[(1 : Nat), 2], [3, 4]])
      = some "\n[ 1 2 ]\n[ 3 4 ]\n" := by
  decide

/-- Claim C10: rendering a matrix whose backing buffer is empty — such as
one produced by the unfilled constructor `new(rows, cols)` — hits
`.max().unwrap()` on an empty iterator, i.e. panics (modelled as the absent
result of `render`). -/
theorem render_empty_buffer_panics {α : Type} [ToString α] (m : Matrix α)
    (r c : Nat) (h : m.matrix = []) :
    Matrix.render m = none ∧ (Matrix.new α r c).matrix = [] := by
  refine ⟨?_, rfl⟩
  unfold Matrix.render
  rw [h]
  rfl

/-- Witness for claim C10 at a concrete input: rendering the unfilled 2×3
matrix of naturals yields no string. -/
theorem render_empty_buffer_panics_witness :
    Matrix.render (Matrix.new Nat 2 3) = none ∧
    (Matrix.new Nat 2 3).matrix = [] :=
  render_empty_buffer_panics (Matrix.new Nat 2 3) 2 3 rfl

end MatrixRs
